import Mathlib

/-!
# Verification of the fishing_map core (scoring engine + data normalization)

Shallow embedding of the repository's pure core:
* `src/engine.ts` — the `FishingEngine` condition-scoring functions,
* `src/api/processWeather.ts` — forecast normalization (`processWeather`,
  `fallbackTides`, `fallbackWeather`),
* `src/api/processTides.ts` — tide normalization (`processTides`),
* `src/api/fetchWeather.ts`, `src/api/fetchTides.ts`, `src/api/fetchAll.ts` —
  the acquisition coordinator, modelled by passing each fetch's outcome
  explicitly (`Except String _`) instead of performing I/O.

JavaScript numbers are modelled as `ℚ`.  The only NaN-producing operations in
the embedded code are `parseInt`/`parseFloat`, so the fields they populate
(`TideEvent.hour/minute/height`) are `Option`-valued, with `none` standing for
NaN; JS comparisons against NaN (always false) are modelled explicitly.
-/

namespace FishingMap

/-! ## JavaScript numeric primitives over ℚ -/

/-- `Math.round`: round half toward positive infinity. -/
def jsRound (q : ℚ) : ℤ := ⌊q + 1/2⌋

/-- Truncation toward zero, as used by the JS `%` operator. -/
def ratTrunc (q : ℚ) : ℤ := if 0 ≤ q then ⌊q⌋ else -⌊-q⌋

/-- The JS remainder operator `a % b` (truncated division remainder). -/
def jsMod (a b : ℚ) : ℚ := a - b * ratTrunc (a / b)

/-- The JS remainder operator on integer-valued numbers. -/
def jsModInt (a b : ℤ) : ℤ := a - b * (if 0 ≤ a then a.ediv b else -((-a).ediv b))

/-- JS `>=` against a possibly-NaN (`none`) left operand: NaN compares false. -/
def nGe (a : Option ℤ) (b : ℤ) : Bool :=
  match a with
  | some x => decide (b ≤ x)
  | none => false

/-- JS `<=` against a possibly-NaN (`none`) left operand: NaN compares false. -/
def nLe (a : Option ℤ) (b : ℤ) : Bool :=
  match a with
  | some x => decide (x ≤ b)
  | none => false

/-- JS `<` against a possibly-NaN (`none`) left operand: NaN compares false. -/
def nLt (a : Option ℤ) (b : ℤ) : Bool :=
  match a with
  | some x => decide (x < b)
  | none => false

/-! ## Shared types (`src/types.ts`) -/

/-- `type Species` — the target species supported by the engine
(the five keys of the `ranges` table in `engine.ts`). -/
inductive Species where
  | tarpon | snook | redfish | blackDrum | speckledTrout
deriving DecidableEq, Inhabited, Repr

/-- `type SelectedSpecies = Species | 'all'`. -/
inductive SelectedSpecies where
  | all
  | species (s : Species)
deriving DecidableEq, Repr

/-- `type TideType = 'H' | 'L'`. -/
inductive TideType where
  | H | L
deriving DecidableEq, Repr

/-- `type TidePreference = 'incoming' | 'outgoing'`. -/
inductive TidePreference where
  | incoming | outgoing
deriving DecidableEq, Repr

/-- `type PressureTrend = 'rising' | 'falling' | 'stable'`. -/
inductive PressureTrend where
  | rising | falling | stable
deriving DecidableEq, Repr, Inhabited

/-- `type Rating = 'excellent' | 'good' | 'fair' | 'poor'`. -/
inductive Rating where
  | excellent | good | fair | poor
deriving DecidableEq, Repr

/-- `interface TideEvent`.  `hour`/`minute` come from `parseInt` and
`Math.floor` (integer or NaN), `height` from `parseFloat`. -/
structure TideEvent where
  hour   : Option ℤ
  minute : Option ℤ
  height : Option ℚ
  type   : TideType
deriving DecidableEq, Repr

/-- `interface DayConditions` — the scoring engine's unified view. -/
structure DayConditions where
  windSpeed     : ℚ
  windDir       : ℚ
  pressure      : ℚ
  pressureTrend : PressureTrend
  tempMax       : ℚ
  tempMin       : ℚ
  precipitation : ℚ
  weatherCode   : ℤ
  tides         : List TideEvent
deriving DecidableEq, Repr

/-- `interface FishingSpot` — the fields the engine reads (the catalog's
purely presentational fields — coordinates, description, features, tips —
are not consumed by any embedded function and are omitted). -/
structure FishingSpot where
  id             : String
  name           : String
  species        : List Species
  tidePreference : TidePreference
deriving DecidableEq, Repr

/-- `interface SpotScores` — the seven sub-scores assigned by `rateSpot`. -/
structure SpotScores where
  wind          : ℚ
  pressure      : ℚ
  tides         : ℚ
  temperature   : ℚ
  windDirection : ℚ
  coldFront     : ℚ
  precipitation : ℚ
deriving DecidableEq, Repr

/-- `interface SpotResult`.  `score` is the result of `Math.round`, hence an
integer. -/
structure SpotResult where
  score    : ℤ
  rating   : Rating
  color    : String
  scores   : SpotScores
  bestTime : String
deriving DecidableEq, Repr

/-! ## The scoring engine (`src/engine.ts`) -/

/-- `FishingEngine.scoreWind` — step function of wind speed, 0–25. -/
def scoreWind (mph : ℚ) : ℚ :=
  if mph < 5 then 25
  else if mph < 10 then 20
  else if mph < 15 then 13
  else if mph < 20 then 6
  else if mph < 25 then 2
  else 0

/-- `FishingEngine.scorePressure` — pressure band base plus trend bonus,
clamped to [0, 25]. -/
def scorePressure (hPa : ℚ) (trend : PressureTrend) : ℚ :=
  let base : ℚ :=
    if hPa ≥ 1023 then 21
    else if hPa ≥ 1015 then 17
    else if hPa ≥ 1008 then 11
    else if hPa ≥ 1000 then 6
    else 2
  let trendBonus : ℚ :=
    match trend with
    | .rising => 4
    | .stable => 1
    | .falling => -6
  max 0 (min 25 (base + trendBonus))

/-- One entry of the species thermal-profile table in `scoreTemperature`. -/
structure TempRange where
  tmin     : ℚ
  toptimal : ℚ
  tmax     : ℚ
deriving DecidableEq, Repr

/-- The `ranges` lookup table inside `FishingEngine.scoreTemperature`. -/
def ranges (s : Species) : TempRange :=
  match s with
  | .tarpon        => ⟨70, 82, 94⟩
  | .snook         => ⟨58, 75, 90⟩
  | .redfish       => ⟨48, 70, 88⟩
  | .blackDrum     => ⟨45, 68, 85⟩
  | .speckledTrout => ⟨45, 68, 82⟩

/-- `FishingEngine.scoreTemperature` — species-specific thermal comfort,
0–20.  Water temperature is estimated as air high minus 3 °F. -/
def scoreTemperature (airTempF : ℚ) (species : Species) : ℚ :=
  let waterTempF := airTempF - 3
  let r := ranges species
  if waterTempF < r.tmin ∨ waterTempF > r.tmax then
    let overshoot := if waterTempF < r.tmin then r.tmin - waterTempF else waterTempF - r.tmax
    max 0 (8 - overshoot)
  else
    let distFromOptimal := |waterTempF - r.toptimal|
    max 5 ((jsRound (20 - distFromOptimal * (3/4)) : ℚ))

/-- `FishingEngine.scoreWindDirection` — 0–10. -/
def scoreWindDirection (windDir : ℚ) : ℚ :=
  if windDir ≥ 90 ∧ windDir ≤ 160 then 10
  else if windDir ≥ 60 ∧ windDir ≤ 200 then 7
  else if windDir ≥ 200 ∧ windDir ≤ 250 then 4
  else if windDir ≥ 250 ∧ windDir ≤ 290 then 2
  else 0

/-- `FishingEngine.scoreColdFront` — 0–10. -/
def scoreColdFront (trend : PressureTrend) (windDir : ℚ) : ℚ :=
  let isNortherly := windDir > 290 ∨ windDir < 60
  if trend = .falling ∧ isNortherly then 0
  else if trend = .rising ∧ isNortherly then 4
  else if trend = .falling ∧ ¬isNortherly then 6
  else 10

/-- `FishingEngine.scorePrecipitation` — 0–5. -/
def scorePrecipitation (precipIn : ℚ) : ℚ :=
  if precipIn < 1/10 then 5
  else if precipIn < 1/4 then 3
  else if precipIn < 1/2 then 1
  else 0

/-- `FishingEngine.scoreWaterMovement` — 0–20; wind- and pressure-driven
movement with the tide count as a minor supplement. -/
def scoreWaterMovement (tides : List TideEvent) (conditions : DayConditions) : ℚ :=
  let tidalActivity : ℚ := min 4 (tides.length : ℚ)
  let pressureActivity : ℚ := if conditions.pressureTrend ≠ .stable then 8 else 2
  let windMovement : ℚ :=
    if conditions.windSpeed ≥ 5 ∧ conditions.windSpeed ≤ 18 then 8
    else if conditions.windSpeed < 5 then 4
    else 2
  min 20 (tidalActivity + pressureActivity + windMovement)

/-- `FishingEngine.getRating` — threshold classification of a score. -/
def getRating (score : ℚ) : Rating :=
  if score ≥ 78 then .excellent
  else if score ≥ 57 then .good
  else if score ≥ 37 then .fair
  else .poor

/-- `FishingEngine.getRatingColor` — fixed rating → hex color table. -/
def getRatingColor (rating : Rating) : String :=
  match rating with
  | .excellent => "#00c851"
  | .good      => "#ffc107"
  | .fair      => "#ff7a00"
  | .poor      => "#f44336"

/-- `fmtHour` (`engine.ts`) — 24-hour integer to a 12-hour clock label.
On NaN (`none`): `NaN % 12` is NaN, which is falsy, so the display hour is
12, and `NaN < 12` is false, so the suffix is PM. -/
def fmtHour (h : Option ℤ) : String :=
  match h with
  | none => "12:00 PM"
  | some h =>
    let r := jsModInt h 12
    let display := if r = 0 then (12 : ℤ) else r
    toString display ++ ":00 " ++ (if h < 12 then "AM" else "PM")

/-- The preferred-tide predicate used by `scoreTides`/`primeTideBonus`/
`getBestTime`: incoming prefers high ('H'), outgoing prefers low ('L'). -/
def isPreferredFor (spot : FishingSpot) (t : TideEvent) : Bool :=
  match spot.tidePreference with
  | .incoming => t.type = TideType.H
  | .outgoing => t.type = TideType.L

/-- The scan loop inside `FishingEngine.getBestTime`: first preferred tide
inside a dawn (5–9) or dusk (16–20) window, labelled by window. -/
def bestTimeLoop (spot : FishingSpot) : List TideEvent → Option String
  | [] => none
  | t :: rest =>
    if isPreferredFor spot t then
      if nGe t.hour 5 && nLe t.hour 9 then
        some ("Dawn tide (~" ++ fmtHour t.hour ++ ")")
      else if nGe t.hour 16 && nLe t.hour 20 then
        some ("Dusk tide (~" ++ fmtHour t.hour ++ ")")
      else bestTimeLoop spot rest
    else bestTimeLoop spot rest

/-- `FishingEngine.getBestTime` — best fishing window narration. -/
def getBestTime (tides : List TideEvent) (spot : FishingSpot) : String :=
  if tides.length = 0 then "Dawn and dusk periods"
  else
    match bestTimeLoop spot tides with
    | some s => s
    | none =>
      match tides.find? (fun t => isPreferredFor spot t) with
      | some pref =>
        let label := if pref.type = TideType.H then "high" else "low"
        "Around " ++ fmtHour pref.hour ++ " (" ++ label ++ " tide)"
      | none => "Dawn and dusk periods"

/-- The species used for temperature scoring in `rateSpot`: the selected
species when specific, otherwise `spot.species[0]!`. -/
def primaryFor (spot : FishingSpot) (sel : SelectedSpecies) : Species :=
  match sel with
  | .species s => s
  | .all => spot.species.headI

/-- The exclusion test at the top of `rateSpot`:
`selectedSpecies !== 'all' && !spot.species.includes(selectedSpecies)`. -/
def excludedBy (spot : FishingSpot) (sel : SelectedSpecies) : Prop :=
  match sel with
  | .all => False
  | .species s => s ∉ spot.species

instance (spot : FishingSpot) (sel : SelectedSpecies) : Decidable (excludedBy spot sel) := by
  unfold excludedBy
  cases sel <;> infer_instance

/-- `FishingEngine.rateSpot` — scores one spot against one day's conditions
for a given species filter; `none` when the filter excludes the spot. -/
def rateSpot (spot : FishingSpot) (conditions : DayConditions)
    (selectedSpecies : SelectedSpecies) : Option SpotResult :=
  if excludedBy spot selectedSpecies then
    none
  else
    let primarySpecies := primaryFor spot selectedSpecies
    let scores : SpotScores :=
      { wind          := scoreWind conditions.windSpeed
        pressure      := scorePressure conditions.pressure conditions.pressureTrend
        tides         := scoreWaterMovement conditions.tides conditions
        temperature   := scoreTemperature conditions.tempMax primarySpecies
        windDirection := scoreWindDirection conditions.windDir
        coldFront     := scoreColdFront conditions.pressureTrend conditions.windDir
        precipitation := scorePrecipitation conditions.precipitation }
    let total := scores.wind + scores.pressure + scores.tides + scores.temperature
               + scores.windDirection + scores.coldFront + scores.precipitation
    let rating := getRating total
    some
      { score    := jsRound (min 100 total)
        rating   := rating
        color    := getRatingColor rating
        scores   := scores
        bestTime := getBestTime conditions.tides spot }

/-- The sum of the seven sub-scores assigned by `rateSpot` (spec-side view of
the aggregate before capping and rounding). -/
def subTotal (spot : FishingSpot) (conditions : DayConditions)
    (sel : SelectedSpecies) : ℚ :=
  scoreWind conditions.windSpeed
    + scorePressure conditions.pressure conditions.pressureTrend
    + scoreWaterMovement conditions.tides conditions
    + scoreTemperature conditions.tempMax (primaryFor spot sel)
    + scoreWindDirection conditions.windDir
    + scoreColdFront conditions.pressureTrend conditions.windDir
    + scorePrecipitation conditions.precipitation

/-! ## Forecast normalization (`src/api/processWeather.ts`) -/

/-- `interface OpenMeteoDaily` — one flat array per daily field. -/
structure OpenMeteoDaily where
  time                        : List String
  temperature_2m_max          : List ℚ
  temperature_2m_min          : List ℚ
  precipitation_sum           : List (Option ℚ)
  wind_speed_10m_max          : List ℚ
  wind_direction_10m_dominant : List ℚ
  weather_code                : List ℤ
deriving DecidableEq, Repr

/-- `interface OpenMeteoHourly` — hourly surface pressure, nullable. -/
structure OpenMeteoHourly where
  surface_pressure : List (Option ℚ)
deriving DecidableEq, Repr

/-- `interface OpenMeteoResponse`. -/
structure OpenMeteoResponse where
  daily  : OpenMeteoDaily
  hourly : OpenMeteoHourly
deriving DecidableEq, Repr

/-- `interface WeatherDay` — one normalized forecast day.  `pressure` is the
result of `Math.round`, hence an integer. -/
structure WeatherDay where
  date          : String
  tempMax       : ℚ
  tempMin       : ℚ
  precipitation : ℚ
  windSpeed     : ℚ
  windDir       : ℚ
  weatherCode   : ℤ
  pressure      : ℤ
  pressureTrend : PressureTrend
deriving DecidableEq, Repr, Inhabited

/-- The local `pressures` of the `processWeather` loop for day index `i`:
`hourly.surface_pressure.slice(i*24, i*24+24)` with nulls filtered out
(JS `slice` clamps out-of-range bounds, as `drop`/`take` do). -/
def dayPressures (data : OpenMeteoResponse) (i : ℕ) : List ℚ :=
  ((data.hourly.surface_pressure.drop (i * 24)).take 24).filterMap id

/-- The local `avgPressure` of the `processWeather` loop. -/
def avgPressure (data : OpenMeteoResponse) (i : ℕ) : ℚ :=
  if (dayPressures data i).length > 0 then
    (dayPressures data i).sum / ((dayPressures data i).length : ℚ)
  else 1013

/-- The local `pressureTrend` of the `processWeather` loop: 6 AM sample vs
6 PM sample, each falling back to the day average when null or out of range
(JS `??` absorbs both `null` and `undefined`). -/
def dayTrend (data : OpenMeteoResponse) (i : ℕ) : PressureTrend :=
  let morning := (data.hourly.surface_pressure.getD (i * 24 + 6) none).getD (avgPressure data i)
  let evening := (data.hourly.surface_pressure.getD (i * 24 + 18) none).getD (avgPressure data i)
  let diff := evening - morning
  if diff > 3/2 then .rising else if diff < -(3/2) then .falling else .stable

/-- The body of the `processWeather` loop for day index `i`.  Out-of-range
reads of the non-null daily arrays would be `undefined` in JS; they are
given junk defaults here and never occur for `i < daily.time.length` on a
well-formed payload. -/
def processDay (data : OpenMeteoResponse) (i : ℕ) : WeatherDay :=
  { date          := data.daily.time.getD i ""
    tempMax       := data.daily.temperature_2m_max.getD i 0
    tempMin       := data.daily.temperature_2m_min.getD i 0
    precipitation := (data.daily.precipitation_sum.getD i none).getD 0
    windSpeed     := data.daily.wind_speed_10m_max.getD i 0
    windDir       := data.daily.wind_direction_10m_dominant.getD i 0
    weatherCode   := data.daily.weather_code.getD i 0
    pressure      := jsRound (avgPressure data i)
    pressureTrend := dayTrend data i }

/-- `processWeather` — one `WeatherDay` per entry of `daily.time`. -/
def processWeather (data : OpenMeteoResponse) : List WeatherDay :=
  (List.range data.daily.time.length).map (processDay data)

/-- Spec-side view of a day's window of non-null hourly pressure samples:
the non-null samples at indices `24·i + k`, `k < 24` (an index past the end
of the array contributes nothing, exactly like JS `slice` clamping). -/
def dayPressureWindow (data : OpenMeteoResponse) (i : ℕ) : List ℚ :=
  (List.range 24).filterMap (fun k => data.hourly.surface_pressure.getD (24 * i + k) none)

/-- Spec-side day-average pressure: arithmetic mean of the non-null window
samples, defaulting to 1013 when none remain. -/
def dayAvgPressure (data : OpenMeteoResponse) (i : ℕ) : ℚ :=
  let w := dayPressureWindow data i
  if w.length = 0 then 1013 else w.sum / (w.length : ℚ)

/-! ## Tide normalization (`src/api/processTides.ts`)

JS strings are manipulated as `List Char`; `Record<string, TideEvent[]>` is
an insertion-ordered association list (the JS object's key order for
non-numeric string keys). -/

/-- `String.prototype.indexOf` for a single character: first index, `-1`
when absent. -/
def jsIndexOf (l : List Char) (c : Char) : ℤ :=
  match l.findIdx? (· = c) with
  | some i => i
  | none => -1

/-- `String.prototype.slice(s, e)` with JS index normalization (negative
indices count from the end, both ends clamped to `[0, length]`). -/
def jsSlice (l : List Char) (s e : ℤ) : List Char :=
  let len : ℤ := l.length
  let s' := (if s < 0 then max (len + s) 0 else min s len).toNat
  let e' := (if e < 0 then max (len + e) 0 else min e len).toNat
  (l.drop s').take (e' - s')

/-- One-argument `String.prototype.slice(s)` (to the end of the string). -/
def jsSliceFrom (l : List Char) (s : ℤ) : List Char :=
  jsSlice l s l.length

/-- Whitespace skipped by JS `parseInt`/`parseFloat`. -/
def isJsSpace (c : Char) : Bool :=
  c = ' ' ∨ c = '\t' ∨ c = '\n' ∨ c = '\r'

/-- Value of a string of decimal digits. -/
def digitsToNat (l : List Char) : ℕ :=
  l.foldl (fun a c => a * 10 + (c.toNat - 48)) 0

/-- JS `parseInt(s, 10)`: skip leading whitespace, optional sign, then the
maximal run of decimal digits; NaN (`none`) when that run is empty.
Trailing garbage is ignored. -/
def jsParseInt (l : List Char) : Option ℤ :=
  let l := l.dropWhile isJsSpace
  let signed : List Char → Bool → Option ℤ := fun digitsrc neg =>
    let ds := digitsrc.takeWhile Char.isDigit
    if ds.isEmpty then none
    else some (if neg then -(digitsToNat ds : ℤ) else (digitsToNat ds : ℤ))
  match l with
  | '-' :: rest => signed rest true
  | '+' :: rest => signed rest false
  | _ => signed l false

/-- JS `parseFloat(s)` restricted to plain decimal notation (optional sign,
integer digits, optional fraction); NaN (`none`) when no digits are found.
Exponent suffixes — never produced by the tide feed — are treated as
trailing garbage. -/
def jsParseFloat (l : List Char) : Option ℚ :=
  let l := l.dropWhile isJsSpace
  let unsigned : List Char → Option ℚ := fun src =>
    let ip := src.takeWhile Char.isDigit
    let rest := src.drop ip.length
    match rest with
    | '.' :: rest2 =>
      let fp := rest2.takeWhile Char.isDigit
      if ip.isEmpty ∧ fp.isEmpty then none
      else some ((digitsToNat ip : ℚ) + (digitsToNat fp : ℚ) / (10 ^ fp.length : ℚ))
    | _ => if ip.isEmpty then none else some (digitsToNat ip : ℚ)
  match l with
  | '-' :: rest => (unsigned rest).map (fun q => -q)
  | '+' :: rest => unsigned rest
  | _ => unsigned l

/-- `interface NoaaPrediction` — one raw NOAA hi/lo prediction row. -/
structure NoaaPrediction where
  t    : List Char
  v    : List Char
  type : TideType
deriving DecidableEq, Repr

/-- The date key a prediction is grouped under: `p.t.slice(0, indexOf(' '))`. -/
def dateKeyOf (p : NoaaPrediction) : String :=
  (jsSlice p.t 0 (jsIndexOf p.t ' ')).asString

/-- The tide event built from a prediction by the loop body of
`processTides`: manual slicing on the first space and the first colon of the
time part, `parseInt` for hour/minute, `parseFloat` for the height. -/
def eventOf (p : NoaaPrediction) : TideEvent :=
  let spaceIdx := jsIndexOf p.t ' '
  let timePart := jsSliceFrom p.t (spaceIdx + 1)
  let colonIdx := jsIndexOf timePart ':'
  { hour   := jsParseInt (jsSlice timePart 0 colonIdx)
    minute := jsParseInt (jsSliceFrom timePart (colonIdx + 1))
    height := jsParseFloat p.v
    type   := p.type }

/-- A `Record<string, TideEvent[]>` as an insertion-ordered association
list. -/
abbrev TideRecord := List (String × List TideEvent)

/-- JS property read `byDate[k]`: the value at the first (only) entry with
key `k`, `undefined` (`none`) when the key is absent. -/
def recLookup (m : TideRecord) (k : String) : Option (List TideEvent) :=
  match m with
  | [] => none
  | (k', v) :: rest => if k' = k then some v else recLookup rest k

/-- `if (!byDate[k]) byDate[k] = []; byDate[k].push(e)` — append to an
existing key's list, or create the key at the end. -/
def recPush (m : TideRecord) (k : String) (e : TideEvent) : TideRecord :=
  if (recLookup m k).isSome then
    m.map (fun kv => if kv.1 = k then (kv.1, kv.2 ++ [e]) else kv)
  else m ++ [(k, [e])]

/-- `processTides` — group raw predictions by their date substring. -/
def processTides (predictions : List NoaaPrediction) : TideRecord :=
  predictions.foldl (fun byDate p => recPush byDate (dateKeyOf p) (eventOf p)) []

/-- Spec-side grouping: the events of all predictions with date key `d`, in
input order. -/
def groupOf (predictions : List NoaaPrediction) (d : String) : List TideEvent :=
  (predictions.filter (fun p => dateKeyOf p = d)).map eventOf

/-! ## Fallback generators (`fallbackWeather.ts`, `fallbackTides.ts`)

Both generators derive their date keys from the wall clock
(`new Date()` / `setDate` / `toISOString`).  That environment dependence is
abstracted as a function `dateStr : ℕ → String` standing for
`(today + d).toISOString().slice(0, 10)`; everything else is embedded from
the source. -/

/-- `CONFIG.FORECAST_DAYS` (`src/config.ts`). -/
def FORECAST_DAYS : ℕ := 7

/-- `fallbackWeather()` — one idealized day per forecast day. -/
def fallbackWeather (dateStr : ℕ → String) : List WeatherDay :=
  (List.range FORECAST_DAYS).map (fun i =>
    { date          := dateStr i
      tempMax       := 78
      tempMin       := 65
      precipitation := 0
      windSpeed     := 9
      windDir       := 90
      weatherCode   := 1
      pressure      := 1016
      pressureTrend := .stable })

/-- The pre-filter event list built by `fallbackTides` for day index `d`:
high, low, high, low, phase-shifted by `(d * 0.83) % 24` hours. -/
def fallbackDayEventsRaw (d : ℕ) : List TideEvent :=
  let shift := jsMod ((d : ℚ) * (83/100)) 24
  let h0 := jsMod (6 + shift) 24
  [ { hour := some ⌊h0⌋,                  minute := some 0,  height := some (11/10),    type := .H }
  , { hour := some ⌊jsMod (h0 + 6) 24⌋,  minute := some 20, height := some (-(1/10)),  type := .L }
  , { hour := some ⌊jsMod (h0 + 12) 24⌋, minute := some 45, height := some (9/10),     type := .H }
  , { hour := some ⌊jsMod (h0 + 18) 24⌋, minute := some 55, height := some 0,          type := .L } ]

/-- The event list `fallbackTides` stores for day index `d`:
`.filter(t => t.hour >= 0 && t.hour < 24)`. -/
def fallbackDayEvents (d : ℕ) : List TideEvent :=
  (fallbackDayEventsRaw d).filter (fun t => nGe t.hour 0 && nLt t.hour 24)

/-- `tides[dateStr] = [...]` — JS object assignment: overwrite an existing
key in place, else create it at the end. -/
def recSet (m : TideRecord) (k : String) (v : List TideEvent) : TideRecord :=
  if (recLookup m k).isSome then
    m.map (fun kv => if kv.1 = k then (kv.1, v) else kv)
  else m ++ [(k, v)]

/-- `fallbackTides()` — synthetic tide schedule over the forecast period. -/
def fallbackTides (dateStr : ℕ → String) : TideRecord :=
  (List.range FORECAST_DAYS).foldl (fun tides d => recSet tides (dateStr d) (fallbackDayEvents d)) []

/-! ## Acquisition coordinator (`fetchWeather.ts`, `fetchTides.ts`, `fetchAll.ts`)

I/O is modelled by passing the transport outcome of each `fetch` in
explicitly: `Except.error m` is a rejected promise with message `m`;
`Except.ok (ok, status, body)` is a settled response with its HTTP status
and parsed JSON body.  A thrown `Error` propagates as `Except.error`. -/

/-- `interface NoaaResponse` — predictions, or an application-level error
payload in their place. -/
structure NoaaResponse where
  predictions : Option (List NoaaPrediction)
  error       : Option String
deriving DecidableEq, Repr

/-- The transport outcome of one `fetch` call: rejection, or a response
with status flag/code and body. -/
structure Transport (α : Type) where
  ok     : Bool
  status : ℕ
  body   : α
deriving DecidableEq, Repr

/-- `fetchWeather` — throws `Weather API returned <status>` on a non-OK
transport status, else normalizes the payload. -/
def fetchWeatherOutcome (transport : Except String (Transport OpenMeteoResponse)) :
    Except String (List WeatherDay) :=
  match transport with
  | .error m => .error m
  | .ok res =>
    if !res.ok then .error ("Weather API returned " ++ toString res.status)
    else .ok (processWeather res.body)

/-- `fetchTides` — throws `NOAA API returned <status>` on a non-OK transport
status; on `data.error ?? !data.predictions` (an application-level error
payload, or a missing prediction list) resolves to `fallbackTides()`
without throwing; else normalizes the predictions. -/
def fetchTidesOutcome (dateStr : ℕ → String)
    (transport : Except String (Transport NoaaResponse)) : Except String TideRecord :=
  match transport with
  | .error m => .error m
  | .ok res =>
    if !res.ok then .error ("NOAA API returned " ++ toString res.status)
    else if res.body.error.isSome || res.body.predictions.isNone then
      .ok (fallbackTides dateStr)
    else .ok (processTides (res.body.predictions.getD []))

/-- `Promise.all([fetchWeather(), fetchTides()])`: both must settle; any
rejection rejects the join with that failure's message.  (When both reject,
JS keeps the temporally first rejection; this model keeps the weather one.) -/
def promiseAll2 {α β : Type} (w : Except String α) (t : Except String β) :
    Except String (α × β) :=
  match w, t with
  | .error m, _ => .error m
  | .ok _, .error m => .error m
  | .ok a, .ok b => .ok (a, b)

/-- `interface FetchResult`. -/
structure FetchResult where
  weather : List WeatherDay
  tides   : TideRecord
  error   : Option String
deriving DecidableEq, Repr

/-- `fetchAll` — on success both normalized feeds with `error = null`; on
any rejection, full fallback substitution for both feeds plus the failure's
message. -/
def fetchAll (dateStr : ℕ → String)
    (joined : Except String (List WeatherDay × TideRecord)) : FetchResult :=
  match joined with
  | .ok (weather, tides) => { weather := weather, tides := tides, error := none }
  | .error message =>
    { weather := fallbackWeather dateStr
      tides   := fallbackTides dateStr
      error   := some message }

/-! ## Spec-side views and concrete example inputs -/

/-- A concrete spot used in the C1/C2 example instances. -/
def exSpot : FishingSpot :=
  { id := "spot-1", name := "Spot One", species := [.redfish], tidePreference := .incoming }

/-- Concrete day conditions whose sub-scores sum to 77.5, so that rounding
the capped total crosses the 78 "excellent" threshold. -/
def exConds : DayConditions :=
  { windSpeed := 7, windDir := 250, pressure := 1008, pressureTrend := .rising,
    tempMax := 101/2, tempMin := 0, precipitation := 0, weatherCode := 0, tides := [] }

/-- The result `rateSpot` produces for `exSpot`/`exConds`: the seven
sub-scores are 20 + 15 + 16 + 7.5 + 4 + 10 + 5 = 77.5, the stored score is
`round (min 100 77.5) = 78`, and the stored rating classifies the unrounded
total 77.5, i.e. `good`. -/
def exResult : SpotResult :=
  { score := 78, rating := .good, color := "#ffc107",
    scores := { wind := 20, pressure := 15, tides := 16, temperature := 15/2,
                windDirection := 4, coldFront := 10, precipitation := 5 },
    bestTime := "Dawn and dusk periods" }

/-- A concrete one-day forecast payload whose 24 hourly pressure samples
all equal 1017.6 hPa (= 5088/5). -/
def exForecast : OpenMeteoResponse :=
  { daily := { time := ["2024-06-15"], temperature_2m_max := [80],
               temperature_2m_min := [60], precipitation_sum := [some 0],
               wind_speed_10m_max := [5], wind_direction_10m_dominant := [90],
               weather_code := [1] },
    hourly := { surface_pressure := List.replicate 24 (some (5088/5)) } }

/-- First-occurrence deduplication, the key order a JS object acquires as
string keys are first assigned. -/
def dedupFirst (l : List String) : List String :=
  l.foldl (fun acc x => if x ∈ acc then acc else acc ++ [x]) []

/-- The tide event of the round-trip example: `"2024-06-15 06:30"` height
`"1.2"` type H. -/
def exPrediction : NoaaPrediction :=
  { t := ("2024-06-15 06:30").toList, v := ("1.2").toList, type := .H }

/-- The date-string parameter used in concrete fetch examples (seven
distinct keys). -/
def exDateStr : ℕ → String := fun i => toString i

/-- A concrete NOAA response carrying an application-level error payload. -/
def exNoaaErr : NoaaResponse := { predictions := none, error := some "No data" }

/-! ## Helper lemmas -/

lemma jsRound_le_int (q : ℚ) (n : ℤ) (h : q ≤ (n : ℚ)) : jsRound q ≤ n := by
  unfold jsRound
  have h1 : q + 1/2 < ((n + 1 : ℤ) : ℚ) := by push_cast; linarith
  have := Int.floor_lt.mpr h1
  omega

lemma jsRound_nonneg (q : ℚ) (h : 0 ≤ q) : 0 ≤ jsRound q := by
  unfold jsRound
  exact Int.le_floor.mpr (by push_cast; linarith)

lemma scoreWind_nonneg (mph : ℚ) : 0 ≤ scoreWind mph := by
  unfold scoreWind
  split_ifs <;> norm_num

lemma scoreWind_le_25 (mph : ℚ) : scoreWind mph ≤ 25 := by
  unfold scoreWind
  split_ifs <;> norm_num

lemma scorePressure_nonneg (hPa : ℚ) (trend : PressureTrend) :
    0 ≤ scorePressure hPa trend :=
  le_max_left 0 _

lemma scorePressure_le_25 (hPa : ℚ) (trend : PressureTrend) :
    scorePressure hPa trend ≤ 25 :=
  max_le (by norm_num) (min_le_left _ _)

lemma scoreWaterMovement_nonneg (tides : List TideEvent) (c : DayConditions) :
    0 ≤ scoreWaterMovement tides c := by
  unfold scoreWaterMovement
  refine le_min (by norm_num) ?_
  have h1 : (0 : ℚ) ≤ min 4 (tides.length : ℚ) :=
    le_min (by norm_num) (by positivity)
  have h2 : (0 : ℚ) ≤ (if c.pressureTrend ≠ .stable then (8 : ℚ) else 2) := by
    split_ifs <;> norm_num
  have h3 : (0 : ℚ) ≤
      (if c.windSpeed ≥ 5 ∧ c.windSpeed ≤ 18 then (8 : ℚ)
       else if c.windSpeed < 5 then 4 else 2) := by
    split_ifs <;> norm_num
  linarith

lemma scoreTemperature_nonneg (t : ℚ) (s : Species) : 0 ≤ scoreTemperature t s := by
  unfold scoreTemperature
  dsimp only
  split_ifs
  · exact le_max_left 0 _
  · exact le_max_left 0 _
  · exact le_trans (by norm_num) (le_max_left 5 _)

lemma scoreTemperature_le_20 (t : ℚ) (s : Species) : scoreTemperature t s ≤ 20 := by
  unfold scoreTemperature
  dsimp only
  split_ifs with h1 h2
  · exact max_le (by norm_num) (by linarith)
  · rcases h1 with h | h
    · exact absurd h h2
    · exact max_le (by norm_num) (by linarith)
  · refine max_le (by norm_num) ?_
    have hd : (0 : ℚ) ≤ |t - 3 - (ranges s).toptimal| := abs_nonneg _
    have hj : jsRound (20 - |t - 3 - (ranges s).toptimal| * (3/4)) ≤ (20 : ℤ) :=
      jsRound_le_int _ 20 (by push_cast; nlinarith)
    exact_mod_cast hj

lemma scoreWindDirection_nonneg (d : ℚ) : 0 ≤ scoreWindDirection d := by
  unfold scoreWindDirection
  split_ifs <;> norm_num

lemma scoreColdFront_nonneg (trend : PressureTrend) (d : ℚ) :
    0 ≤ scoreColdFront trend d := by
  unfold scoreColdFront
  dsimp only
  split_ifs <;> norm_num

lemma scorePrecipitation_nonneg (p : ℚ) : 0 ≤ scorePrecipitation p := by
  unfold scorePrecipitation
  split_ifs <;> norm_num

lemma subTotal_nonneg (spot : FishingSpot) (c : DayConditions) (sel : SelectedSpecies) :
    0 ≤ subTotal spot c sel := by
  unfold subTotal
  have := scoreWind_nonneg c.windSpeed
  have := scorePressure_nonneg c.pressure c.pressureTrend
  have := scoreWaterMovement_nonneg c.tides c
  have := scoreTemperature_nonneg c.tempMax (primaryFor spot sel)
  have := scoreWindDirection_nonneg c.windDir
  have := scoreColdFront_nonneg c.pressureTrend c.windDir
  have := scorePrecipitation_nonneg c.precipitation
  linarith

/-! ## C3 — scorePressure bounds, trend monotonicity, examples -/

/-- C3: for every pressure and trend, `scorePressure` lies in [0, 25]; for a
fixed pressure it is monotone in the trend (falling ≤ stable ≤ rising); and
`scorePressure 1023 rising = 25`, `scorePressure 990 falling = 0`. -/
theorem scorePressure_spec :
    (∀ hPa trend, 0 ≤ scorePressure hPa trend ∧ scorePressure hPa trend ≤ 25) ∧
    (∀ hPa, scorePressure hPa .falling ≤ scorePressure hPa .stable ∧
            scorePressure hPa .stable ≤ scorePressure hPa .rising) ∧
    scorePressure 1023 .rising = 25 ∧ scorePressure 990 .falling = 0 := by
  refine ⟨fun hPa trend => ⟨scorePressure_nonneg hPa trend, scorePressure_le_25 hPa trend⟩,
    fun hPa => ?_, by norm_num [scorePressure], by norm_num [scorePressure]⟩
  unfold scorePressure
  dsimp only
  constructor <;>
    exact max_le_max le_rfl (min_le_min le_rfl (by linarith))

/-! ## C4 — scoreTemperature bounds, in-band formula, optimum -/

/-- C4: `scoreTemperature` lies in [0, 20]; when the estimated water
temperature (air high − 3 °F) is inside the species band the score is
`max 5 (round (20 − 0.75 · |water − optimal|))`; and it equals exactly 20 at
the species' optimal temperature plus 3 °F. -/
theorem scoreTemperature_spec :
    (∀ t s, 0 ≤ scoreTemperature t s ∧ scoreTemperature t s ≤ 20) ∧
    (∀ t s, (ranges s).tmin ≤ t - 3 → t - 3 ≤ (ranges s).tmax →
      scoreTemperature t s =
        max 5 ((jsRound (20 - |t - 3 - (ranges s).toptimal| * (3/4)) : ℚ))) ∧
    (∀ s, scoreTemperature ((ranges s).toptimal + 3) s = 20) := by
  refine ⟨fun t s => ⟨scoreTemperature_nonneg t s, scoreTemperature_le_20 t s⟩,
    fun t s hmin hmax => ?_, fun s => ?_⟩
  · unfold scoreTemperature
    dsimp only
    rw [if_neg (by push_neg; exact ⟨hmin, hmax⟩)]
  · cases s <;> with_unfolding_all decide

/-- C4 witness: the in-band formula evaluated for redfish at 70 °F air. -/
theorem scoreTemperature_spec_witness :
    ((ranges .redfish).tmin ≤ 70 - 3 ∧ (70 : ℚ) - 3 ≤ (ranges .redfish).tmax) ∧
    scoreTemperature 70 .redfish =
      max 5 ((jsRound (20 - |(70 : ℚ) - 3 - (ranges .redfish).toptimal| * (3/4)) : ℚ)) :=
  ⟨⟨by norm_num [ranges], by norm_num [ranges]⟩,
   scoreTemperature_spec.2.1 70 .redfish (by norm_num [ranges]) (by norm_num [ranges])⟩

/-! ## C1 / C2 — the rateSpot contract -/

lemma getRating_min_100 (q : ℚ) : getRating (min 100 q) = getRating q := by
  rcases le_total 100 q with h | h
  · rw [min_eq_left h]
    unfold getRating
    rw [if_pos (by norm_num), if_pos (by linarith)]
  · rw [min_eq_right h]

/-- C1 counterexample: at `exSpot`/`exConds` the returned rating (`good`,
from the unrounded total 77.5) differs from the threshold classification of
the returned score (`getRating 78 = excellent`), refuting
`rating = getRating(result.score)`. -/
theorem rateSpot_rating_of_rounded_score_counterexample :
    rateSpot exSpot exConds .all = some exResult ∧
    exResult.rating = Rating.good ∧
    getRating (exResult.score : ℚ) = Rating.excellent ∧
    exResult.rating ≠ getRating (exResult.score : ℚ) := by
  refine ⟨by with_unfolding_all decide, rfl, by with_unfolding_all decide,
    by with_unfolding_all decide⟩

/-- C1 (amended): whenever `rateSpot` returns a result, its score is
`round (min 100 (sum of the seven sub-scores))` and its rating is the
threshold classification of the capped total before rounding (which may
differ from `getRating(score)` when rounding crosses a threshold). -/
theorem rateSpot_score_rating (spot : FishingSpot) (conditions : DayConditions)
    (sel : SelectedSpecies) (r : SpotResult)
    (h : rateSpot spot conditions sel = some r) :
    r.score = jsRound (min 100 (subTotal spot conditions sel)) ∧
    r.rating = getRating (min 100 (subTotal spot conditions sel)) := by
  unfold rateSpot at h
  split at h
  · exact absurd h (by simp)
  · rw [Option.some_inj] at h
    subst h
    exact ⟨rfl, (getRating_min_100 _).symm⟩

/-- C1 witness: the amended statement instantiated at the concrete example. -/
theorem rateSpot_score_rating_witness :
    rateSpot exSpot exConds .all = some exResult ∧
    (exResult.score = jsRound (min 100 (subTotal exSpot exConds .all)) ∧
     exResult.rating = getRating (min 100 (subTotal exSpot exConds .all))) :=
  ⟨by with_unfolding_all decide,
   rateSpot_score_rating exSpot exConds .all exResult (by with_unfolding_all decide)⟩

/-- C2: under the data-model invariant that a spot's species list is
non-empty (with an empty list and filter `all`, the JS code would crash on
`ranges[undefined]` rather than return), `rateSpot` returns `null` iff the
filter names a specific species absent from the spot's list, and otherwise
returns a result whose score lies in [0, 100]. -/
theorem rateSpot_null_iff_and_score_bounds (spot : FishingSpot)
    (conditions : DayConditions) (sel : SelectedSpecies)
    (hne : spot.species ≠ []) :
    (rateSpot spot conditions sel = none ↔
      ∃ s, sel = SelectedSpecies.species s ∧ s ∉ spot.species) ∧
    (∀ r, rateSpot spot conditions sel = some r → 0 ≤ r.score ∧ r.score ≤ 100) := by
  constructor
  · cases sel with
    | all =>
      simp only [rateSpot, excludedBy, if_false]
      constructor
      · intro h
        exact absurd h (by simp)
      · rintro ⟨s, hs, -⟩
        exact absurd hs (by simp)
    | species s =>
      by_cases hmem : s ∈ spot.species
      · rw [rateSpot, if_neg (by simpa [excludedBy] using hmem)]
        constructor
        · intro h
          exact absurd h (by simp)
        · rintro ⟨s', hs', hnot⟩
          obtain rfl : s = s' := by injection hs'
          exact absurd hmem hnot
      · rw [rateSpot, if_pos (by simpa [excludedBy] using hmem)]
        exact ⟨fun _ => ⟨s, rfl, hmem⟩, fun _ => rfl⟩
  · intro r h
    unfold rateSpot at h
    split at h
    · exact absurd h (by simp)
    · rw [Option.some_inj] at h
      subst h
      refine ⟨jsRound_nonneg _ ?_, jsRound_le_int _ 100 ?_⟩
      · exact le_min (by norm_num) (subTotal_nonneg spot conditions sel)
      · exact_mod_cast min_le_left (100 : ℚ) _

/-- C2 witness: the contract instantiated at the concrete example spot. -/
theorem rateSpot_null_iff_and_score_bounds_witness :
    exSpot.species ≠ [] ∧
    ((rateSpot exSpot exConds .all = none ↔
       ∃ s, SelectedSpecies.all = SelectedSpecies.species s ∧ s ∉ exSpot.species) ∧
     (∀ r, rateSpot exSpot exConds .all = some r → 0 ≤ r.score ∧ r.score ≤ 100)) :=
  ⟨by decide, rateSpot_null_iff_and_score_bounds exSpot exConds .all (by decide)⟩

/-! ## C5 / C6 — processWeather pressure and trend -/

lemma jsRound_intCast (n : ℤ) : jsRound (n : ℚ) = n := by
  unfold jsRound
  rw [Int.floor_eq_iff]
  constructor <;> push_cast <;> linarith

lemma take_filterMap_getD {α : Type} (l : List (Option α)) (m : ℕ) :
    (l.take m).filterMap id = (List.range m).filterMap (fun k => l.getD k none) := by
  induction l generalizing m with
  | nil =>
    rw [List.take_nil, List.filterMap_nil]
    symm
    rw [List.filterMap_eq_nil]
    intro a _
    rfl
  | cons a t ih =>
    cases m with
    | zero => rfl
    | succ m =>
      rw [List.take_succ_cons, List.range_succ_eq_map, List.filterMap_cons,
        List.filterMap_cons, List.filterMap_map]
      have hcomp : ((fun k => (a :: t).getD k none) ∘ Nat.succ) = (fun k => t.getD k none) := by
        funext k
        simp [List.getD_cons_succ]
      rw [hcomp, ← ih m]
      cases a <;> rfl

lemma getD_drop_none {α : Type} (l : List (Option α)) (n k : ℕ) :
    (l.drop n).getD k none = l.getD (n + k) none := by
  rw [List.getD_eq_getD_get?, List.getD_eq_getD_get?, List.get?_drop]

lemma dayPressures_eq_window (data : OpenMeteoResponse) (i : ℕ) :
    dayPressures data i = dayPressureWindow data i := by
  unfold dayPressures dayPressureWindow
  rw [take_filterMap_getD]
  simp only [getD_drop_none, Nat.mul_comm i 24]

lemma avgPressure_eq_spec (data : OpenMeteoResponse) (i : ℕ) :
    avgPressure data i = dayAvgPressure data i := by
  unfold avgPressure dayAvgPressure
  rw [dayPressures_eq_window]
  rcases Nat.eq_zero_or_pos (dayPressureWindow data i).length with h0 | h0
  · rw [if_neg (by omega), if_pos h0]
  · rw [if_pos h0, if_neg (by omega)]

lemma processWeather_length (data : OpenMeteoResponse) :
    (processWeather data).length = data.daily.time.length := by
  simp [processWeather]

lemma processWeather_getD (data : OpenMeteoResponse) (i : ℕ)
    (h : i < data.daily.time.length) :
    (processWeather data).getD i default = processDay data i := by
  unfold processWeather
  rw [List.getD_eq_getD_get?, List.get?_map, List.get?_range h]
  rfl

/-- C5: the normalizer stores one day per forecast date, and the stored
pressure is the rounded arithmetic mean of the non-null hourly samples in
the window [24·i, 24·i+24), defaulting to 1013 when no non-null sample
remains. -/
theorem processWeather_pressure_spec (data : OpenMeteoResponse) (i : ℕ)
    (h : i < data.daily.time.length) :
    (processWeather data).length = data.daily.time.length ∧
    ((processWeather data).getD i default).pressure =
      (if (dayPressureWindow data i).length = 0 then 1013
       else jsRound ((dayPressureWindow data i).sum / ((dayPressureWindow data i).length : ℚ))) := by
  refine ⟨processWeather_length data, ?_⟩
  rw [processWeather_getD data i h]
  show jsRound (avgPressure data i) = _
  unfold avgPressure
  rw [dayPressures_eq_window]
  rcases Nat.eq_zero_or_pos (dayPressureWindow data i).length with h0 | h0
  · rw [if_neg (by omega), if_pos h0]
    norm_num [jsRound]
  · rw [if_pos h0, if_neg (by omega)]

/-- C5 witness: the characterization at the concrete payload, where the
average 1017.6 rounds to 1018. -/
theorem processWeather_pressure_spec_witness :
    0 < exForecast.daily.time.length ∧
    ((processWeather exForecast).length = exForecast.daily.time.length ∧
     ((processWeather exForecast).getD 0 default).pressure =
       (if (dayPressureWindow exForecast 0).length = 0 then 1013
        else jsRound ((dayPressureWindow exForecast 0).sum /
          ((dayPressureWindow exForecast 0).length : ℚ)))) ∧
    ((processWeather exForecast).getD 0 default).pressure = 1018 :=
  ⟨by norm_num [exForecast],
   processWeather_pressure_spec exForecast 0 (by norm_num [exForecast]),
   by with_unfolding_all decide⟩

/-- C6: the stored pressure trend compares the local-hour-6 sample to the
local-hour-18 sample of the day's window, substituting the day's average
pressure for a missing sample; difference > 1.5 is rising, < −1.5 falling,
otherwise stable. -/
theorem processWeather_trend_spec (data : OpenMeteoResponse) (i : ℕ)
    (h : i < data.daily.time.length) :
    ((processWeather data).getD i default).pressureTrend =
      (let avg := dayAvgPressure data i
       let morning := (data.hourly.surface_pressure.getD (24 * i + 6) none).getD avg
       let evening := (data.hourly.surface_pressure.getD (24 * i + 18) none).getD avg
       if evening - morning > 3/2 then PressureTrend.rising
       else if evening - morning < -(3/2) then PressureTrend.falling
       else PressureTrend.stable) := by
  rw [processWeather_getD data i h]
  show dayTrend data i = _
  unfold dayTrend
  rw [avgPressure_eq_spec, Nat.mul_comm i 24]

/-- C6 witness: at the concrete all-1017.6 payload both comparison samples
equal the day average, so the trend is stable. -/
theorem processWeather_trend_spec_witness :
    0 < exForecast.daily.time.length ∧
    (((processWeather exForecast).getD 0 default).pressureTrend =
      (let avg := dayAvgPressure exForecast 0
       let morning := (exForecast.hourly.surface_pressure.getD (24 * 0 + 6) none).getD avg
       let evening := (exForecast.hourly.surface_pressure.getD (24 * 0 + 18) none).getD avg
       if evening - morning > 3/2 then PressureTrend.rising
       else if evening - morning < -(3/2) then PressureTrend.falling
       else PressureTrend.stable)) ∧
    ((processWeather exForecast).getD 0 default).pressureTrend = PressureTrend.stable :=
  ⟨by norm_num [exForecast],
   processWeather_trend_spec exForecast 0 (by norm_num [exForecast]),
   by with_unfolding_all decide⟩

/-! ## C7 — processTides grouping -/

lemma recLookup_cons_self (k : String) (v : List TideEvent) (t : TideRecord) :
    recLookup ((k, v) :: t) k = some v := by
  simp [recLookup]

lemma recLookup_cons_ne {k' k : String} (v : List TideEvent) (t : TideRecord)
    (h : k' ≠ k) : recLookup ((k', v) :: t) k = recLookup t k := by
  simp [recLookup, h]

lemma recPush_cons_self (k : String) (v : List TideEvent) (t : TideRecord) (e : TideEvent) :
    recPush ((k, v) :: t) k e =
      (k, v ++ [e]) :: t.map (fun kv => if kv.1 = k then (kv.1, kv.2 ++ [e]) else kv) := by
  unfold recPush
  rw [if_pos (by simp [recLookup])]
  simp

lemma recPush_cons_ne {k' k : String} (v : List TideEvent) (t : TideRecord) (e : TideEvent)
    (h : k' ≠ k) : recPush ((k', v) :: t) k e = (k', v) :: recPush t k e := by
  unfold recPush
  rw [recLookup_cons_ne v t h]
  by_cases hs : (recLookup t k).isSome
  · rw [if_pos hs, if_pos hs]
    simp [h]
  · rw [if_neg hs, if_neg hs]
    rfl

lemma recLookup_map_update_ne (t : TideRecord) (k : String) (e : TideEvent) (d : String)
    (h : d ≠ k) :
    recLookup (t.map (fun kv => if kv.1 = k then (kv.1, kv.2 ++ [e]) else kv)) d =
      recLookup t d := by
  induction t with
  | nil => rfl
  | cons kv t ih =>
    obtain ⟨a, b⟩ := kv
    by_cases ha : a = k
    · subst ha
      rw [List.map_cons]
      rw [if_pos rfl]
      rw [recLookup_cons_ne _ _ (by exact fun hc => h hc.symm), recLookup_cons_ne _ _ (by exact fun hc => h hc.symm)]
      exact ih
    · rw [List.map_cons, if_neg ha]
      by_cases hd : a = d
      · subst hd
        rw [recLookup_cons_self, recLookup_cons_self]
      · rw [recLookup_cons_ne _ _ hd, recLookup_cons_ne _ _ hd]
        exact ih

lemma recLookup_recPush_self (m : TideRecord) (k : String) (e : TideEvent) :
    recLookup (recPush m k e) k = some ((recLookup m k).getD [] ++ [e]) := by
  induction m with
  | nil => simp [recPush, recLookup]
  | cons kv t ih =>
    obtain ⟨k', v⟩ := kv
    by_cases hk : k' = k
    · subst hk
      rw [recPush_cons_self, recLookup_cons_self, recLookup_cons_self]
      rfl
    · rw [recPush_cons_ne v t e hk, recLookup_cons_ne _ _ hk, recLookup_cons_ne _ _ hk]
      exact ih

lemma recLookup_recPush_ne (m : TideRecord) (k : String) (e : TideEvent) (d : String)
    (h : d ≠ k) : recLookup (recPush m k e) d = recLookup m d := by
  induction m with
  | nil =>
    simp [recPush, recLookup]
    exact fun hc => absurd hc.symm h
  | cons kv t ih =>
    obtain ⟨k', v⟩ := kv
    by_cases hk : k' = k
    · subst hk
      rw [recPush_cons_self]
      rw [recLookup_cons_ne _ _ (by exact fun hc => h hc.symm), recLookup_cons_ne _ _ (by exact fun hc => h hc.symm)]
      exact recLookup_map_update_ne t k' e d h
    · rw [recPush_cons_ne v t e hk]
      by_cases hd : k' = d
      · subst hd
        rw [recLookup_cons_self, recLookup_cons_self]
      · rw [recLookup_cons_ne _ _ hd, recLookup_cons_ne _ _ hd]
        exact ih

lemma processTides_foldl (preds : List NoaaPrediction) :
    ∀ (m : TideRecord) (d : String),
      recLookup (preds.foldl (fun byDate p => recPush byDate (dateKeyOf p) (eventOf p)) m) d =
        (match recLookup m d with
         | some l => some (l ++ groupOf preds d)
         | none => if groupOf preds d = [] then none else some (groupOf preds d)) := by
  induction preds with
  | nil =>
    intro m d
    cases h : recLookup m d <;> simp [groupOf, h]
  | cons p rest ih =>
    intro m d
    rw [List.foldl_cons, ih]
    by_cases hd : dateKeyOf p = d
    · subst hd
      rw [recLookup_recPush_self]
      have hg : groupOf (p :: rest) (dateKeyOf p) = eventOf p :: groupOf rest (dateKeyOf p) := by
        simp [groupOf]
      rw [hg]
      cases h : recLookup m (dateKeyOf p) <;> simp [h]
    · rw [recLookup_recPush_ne _ _ _ _ (fun hc => hd hc.symm)]
      have hg : groupOf (p :: rest) d = groupOf rest d := by
        simp [groupOf, hd]
      rw [hg]

lemma recLookup_isSome_iff (m : TideRecord) (k : String) :
    (recLookup m k).isSome ↔ k ∈ m.map Prod.fst := by
  induction m with
  | nil => simp [recLookup]
  | cons kv t ih =>
    obtain ⟨a, b⟩ := kv
    by_cases ha : a = k
    · subst ha
      simp [recLookup_cons_self]
    · rw [recLookup_cons_ne _ _ ha, ih]
      simp only [List.map_cons, List.mem_cons]
      constructor
      · exact Or.inr
      · rintro (h | h)
        · exact absurd h.symm ha
        · exact h

lemma keys_recPush (m : TideRecord) (k : String) (e : TideEvent) :
    (recPush m k e).map Prod.fst =
      (if k ∈ m.map Prod.fst then m.map Prod.fst else m.map Prod.fst ++ [k]) := by
  unfold recPush
  by_cases hs : (recLookup m k).isSome
  · rw [if_pos hs, if_pos ((recLookup_isSome_iff m k).mp hs)]
    rw [List.map_map]
    apply List.map_congr_left
    intro kv _
    by_cases hk : kv.1 = k <;> simp [hk]
  · rw [if_neg hs, if_neg (fun hmem => hs ((recLookup_isSome_iff m k).mpr hmem))]
    simp

lemma processTides_keys_foldl (preds : List NoaaPrediction) :
    ∀ (m : TideRecord),
      ((preds.foldl (fun byDate p => recPush byDate (dateKeyOf p) (eventOf p)) m).map Prod.fst) =
        preds.foldl (fun acc p => if dateKeyOf p ∈ acc then acc else acc ++ [dateKeyOf p])
          (m.map Prod.fst) := by
  induction preds with
  | nil => intro m; rfl
  | cons p rest ih =>
    intro m
    rw [List.foldl_cons, List.foldl_cons, ih, keys_recPush]

/-- C7: `processTides` groups events under the date substring of each
prediction: looking up a date yields exactly the events of the predictions
with that date key, in input order (and no entry when there are none); the
key order is the order of first occurrence; and the concrete example row
parses to hour 6, minute 30, height 1.2, type H under key `2024-06-15`. -/
theorem processTides_spec :
    (∀ (preds : List NoaaPrediction) (d : String),
      recLookup (processTides preds) d =
        (if groupOf preds d = [] then none else some (groupOf preds d))) ∧
    (∀ preds : List NoaaPrediction,
      (processTides preds).map Prod.fst = dedupFirst (preds.map dateKeyOf)) ∧
    processTides [exPrediction] =
      [("2024-06-15",
        [{ hour := some 6, minute := some 30, height := some (6/5), type := .H }])] := by
  refine ⟨fun preds d => ?_, fun preds => ?_, by with_unfolding_all decide⟩
  · have h := processTides_foldl preds [] d
    simpa [processTides, recLookup] using h
  · rw [processTides, processTides_keys_foldl preds [], dedupFirst, List.foldl_map]
    rfl

/-! ## C10 — fallbackTides per-day events -/

lemma jsMod_nonneg_lt (a : ℚ) (ha : 0 ≤ a) : 0 ≤ jsMod a 24 ∧ jsMod a 24 < 24 := by
  unfold jsMod ratTrunc
  rw [if_pos (by positivity)]
  have h1 : (⌊a / 24⌋ : ℚ) ≤ a / 24 := Int.floor_le _
  have h2 : a / 24 < ⌊a / 24⌋ + 1 := Int.lt_floor_add_one _
  constructor <;> nlinarith [h1, h2]

lemma floor_hour_bounds (x : ℚ) (h0 : 0 ≤ x) (h24 : x < 24) : 0 ≤ ⌊x⌋ ∧ ⌊x⌋ ≤ 23 := by
  refine ⟨Int.floor_nonneg.mpr h0, ?_⟩
  have := Int.floor_lt.mpr (show x < ((24 : ℤ) : ℚ) by push_cast; linarith)
  omega

lemma floor_jsMod_bounds (a : ℚ) (ha : 0 ≤ a) : 0 ≤ ⌊jsMod a 24⌋ ∧ ⌊jsMod a 24⌋ ≤ 23 := by
  obtain ⟨h1, h2⟩ := jsMod_nonneg_lt a ha
  exact floor_hour_bounds _ h1 h2

/-- C10: for every day index, the fallback tide generator's filter drops
nothing, so the day's schedule has exactly 4 events, whose hours are
integers in [0, 23], whose heights are the fixed cycle 1.1, −0.1, 0.9, 0.0,
and whose types alternate H, L, H, L. -/
theorem fallbackTides_events_spec (d : ℕ) :
    fallbackDayEvents d = fallbackDayEventsRaw d ∧
    (fallbackDayEvents d).length = 4 ∧
    (∃ h1 h2 h3 h4 : ℤ,
      (fallbackDayEvents d).map TideEvent.hour = [some h1, some h2, some h3, some h4] ∧
      (0 ≤ h1 ∧ h1 ≤ 23) ∧ (0 ≤ h2 ∧ h2 ≤ 23) ∧ (0 ≤ h3 ∧ h3 ≤ 23) ∧ (0 ≤ h4 ∧ h4 ≤ 23)) ∧
    (fallbackDayEvents d).map TideEvent.height =
      [some (11/10), some (-(1/10)), some (9/10), some 0] ∧
    (fallbackDayEvents d).map TideEvent.type = [.H, .L, .H, .L] := by
  have hsh : 0 ≤ jsMod ((d : ℚ) * (83/100)) 24 := (jsMod_nonneg_lt _ (by positivity)).1
  have hx0 : 0 ≤ jsMod (6 + jsMod ((d : ℚ) * (83/100)) 24) 24 :=
    (jsMod_nonneg_lt _ (by linarith)).1
  have b1 := floor_jsMod_bounds (6 + jsMod ((d : ℚ) * (83/100)) 24) (by linarith)
  have b2 := floor_jsMod_bounds (jsMod (6 + jsMod ((d : ℚ) * (83/100)) 24) 24 + 6) (by linarith)
  have b3 := floor_jsMod_bounds (jsMod (6 + jsMod ((d : ℚ) * (83/100)) 24) 24 + 12) (by linarith)
  have b4 := floor_jsMod_bounds (jsMod (6 + jsMod ((d : ℚ) * (83/100)) 24) 24 + 18) (by linarith)
  have hraw : fallbackDayEvents d = fallbackDayEventsRaw d := by
    unfold fallbackDayEvents fallbackDayEventsRaw
    dsimp only
    rw [List.filter_eq_self]
    intro e he
    simp only [List.mem_cons, List.not_mem_nil, or_false] at he
    rcases he with rfl | rfl | rfl | rfl <;>
      simp only [nGe, nLt, Bool.and_eq_true, decide_eq_true_eq] <;> omega
  refine ⟨hraw, by rw [hraw]; rfl, ?_, by rw [hraw]; rfl, by rw [hraw]; rfl⟩
  rw [hraw]
  unfold fallbackDayEventsRaw
  dsimp only
  exact ⟨_, _, _, _, rfl, b1, b2, b3, b4⟩

/-! ## C8 / C9 — fetchAll failure handling -/

lemma recLookup_eq_none (m : TideRecord) (k : String) (h : k ∉ m.map Prod.fst) :
    recLookup m k = none :=
  Option.not_isSome_iff_eq_none.mp (fun hs => h ((recLookup_isSome_iff m k).mp hs))

lemma recSet_new (m : TideRecord) (k : String) (v : List TideEvent)
    (h : k ∉ m.map Prod.fst) : recSet m k v = m ++ [(k, v)] := by
  unfold recSet
  rw [recLookup_eq_none m k h]
  rfl

lemma foldl_recSet_keys (dateStr : ℕ → String) :
    ∀ (ds : List ℕ) (m : TideRecord),
      (m.map Prod.fst ++ ds.map dateStr).Nodup →
      ((ds.foldl (fun tides d => recSet tides (dateStr d) (fallbackDayEvents d)) m).map
        Prod.fst) = m.map Prod.fst ++ ds.map dateStr := by
  intro ds
  induction ds with
  | nil =>
    intro m _
    simp
  | cons d rest ih =>
    intro m h
    have hnd := List.nodup_append.mp (by simpa using h)
    have hk : dateStr d ∉ m.map Prod.fst :=
      fun hmem => hnd.2.2 hmem (List.mem_cons_self _ _)
    rw [List.foldl_cons, recSet_new m (dateStr d) (fallbackDayEvents d) hk]
    have h' : ((m ++ [(dateStr d, fallbackDayEvents d)]).map Prod.fst ++
        rest.map dateStr).Nodup := by
      rw [List.map_append]
      simpa [← List.append_cons] using h
    rw [ih _ h', List.map_append]
    simp [← List.append_cons]

lemma fallbackTides_keys (dateStr : ℕ → String)
    (hnd : ((List.range FORECAST_DAYS).map dateStr).Nodup) :
    (fallbackTides dateStr).map Prod.fst = (List.range FORECAST_DAYS).map dateStr := by
  unfold fallbackTides
  exact foldl_recSet_keys dateStr (List.range FORECAST_DAYS) [] (by simpa using hnd)

/-- C8: a non-OK forecast transport status is thrown as an HTTP-derived
message; any rejection of either fetch makes `fetchAll` return fallback
weather for the full horizon and fallback tides with one key per forecast
day, with the failure's message in `error`; and when both fetches succeed
`error` is null. -/
theorem fetchAll_failure_spec (dateStr : ℕ → String)
    (hnd : ((List.range FORECAST_DAYS).map dateStr).Nodup) :
    (∀ (status : ℕ) (data : OpenMeteoResponse),
      fetchWeatherOutcome (.ok ⟨false, status, data⟩) =
        .error ("Weather API returned " ++ toString status)) ∧
    (∀ (w : Except String (List WeatherDay)) (t : Except String TideRecord) (m : String),
      (w = .error m ∨ ((∃ a, w = .ok a) ∧ t = .error m)) →
      fetchAll dateStr (promiseAll2 w t) =
        { weather := fallbackWeather dateStr
          tides   := fallbackTides dateStr
          error   := some m }) ∧
    (fallbackWeather dateStr).length = FORECAST_DAYS ∧
    (fallbackTides dateStr).map Prod.fst = (List.range FORECAST_DAYS).map dateStr ∧
    (fallbackTides dateStr).length = FORECAST_DAYS ∧
    (∀ (w : Except String (List WeatherDay)) (t : Except String TideRecord) a b,
      w = Except.ok a → t = Except.ok b →
      (fetchAll dateStr (promiseAll2 w t)).error = none) := by
  refine ⟨fun status data => rfl, ?_, by simp [fallbackWeather], fallbackTides_keys dateStr hnd,
    ?_, ?_⟩
  · rintro w t m (rfl | ⟨⟨a, rfl⟩, rfl⟩)
    · rfl
    · rfl
  · have h := congrArg List.length (fallbackTides_keys dateStr hnd)
    simpa using h
  · rintro w t a b rfl rfl
    rfl

/-- C8 witness: the specification instantiated at a concrete date-key
function with seven distinct forecast dates. -/
theorem fetchAll_failure_spec_witness :
    ((List.range FORECAST_DAYS).map exDateStr).Nodup ∧
    ((∀ (status : ℕ) (data : OpenMeteoResponse),
      fetchWeatherOutcome (.ok ⟨false, status, data⟩) =
        .error ("Weather API returned " ++ toString status)) ∧
    (∀ (w : Except String (List WeatherDay)) (t : Except String TideRecord) (m : String),
      (w = .error m ∨ ((∃ a, w = .ok a) ∧ t = .error m)) →
      fetchAll exDateStr (promiseAll2 w t) =
        { weather := fallbackWeather exDateStr
          tides   := fallbackTides exDateStr
          error   := some m }) ∧
    (fallbackWeather exDateStr).length = FORECAST_DAYS ∧
    (fallbackTides exDateStr).map Prod.fst = (List.range FORECAST_DAYS).map exDateStr ∧
    (fallbackTides exDateStr).length = FORECAST_DAYS ∧
    (∀ (w : Except String (List WeatherDay)) (t : Except String TideRecord) a b,
      w = Except.ok a → t = Except.ok b →
      (fetchAll exDateStr (promiseAll2 w t)).error = none)) :=
  ⟨by decide, fetchAll_failure_spec exDateStr (by decide)⟩

/-- C9: a transport-successful tide response carrying an application-level
error payload (or lacking a prediction list) resolves to the fallback tide
schedule without throwing, so `fetchAll` returns the fetched weather,
fallback tides, and a null error. -/
theorem fetchTides_semantic_failure_spec (dateStr : ℕ → String)
    (wdays : List WeatherDay) (status : ℕ) (data : NoaaResponse)
    (h : data.error.isSome ∨ data.predictions = none) :
    fetchTidesOutcome dateStr (.ok ⟨true, status, data⟩) = .ok (fallbackTides dateStr) ∧
    fetchAll dateStr
      (promiseAll2 (.ok wdays) (fetchTidesOutcome dateStr (.ok ⟨true, status, data⟩))) =
      { weather := wdays, tides := fallbackTides dateStr, error := none } := by
  have hcond : (data.error.isSome || data.predictions.isNone) = true := by
    rcases h with h | h
    · simp [h]
    · simp [h]
  have hout : fetchTidesOutcome dateStr (.ok ⟨true, status, data⟩) =
      .ok (fallbackTides dateStr) := by
    unfold fetchTidesOutcome
    simp [hcond]
  exact ⟨hout, by rw [hout]; rfl⟩

/-- C9 witness: the semantic-failure path at a concrete error payload. -/
theorem fetchTides_semantic_failure_spec_witness :
    (exNoaaErr.error.isSome ∨ exNoaaErr.predictions = none) ∧
    (fetchTidesOutcome exDateStr (.ok ⟨true, 200, exNoaaErr⟩) =
        .ok (fallbackTides exDateStr) ∧
      fetchAll exDateStr
        (promiseAll2 (.ok []) (fetchTidesOutcome exDateStr (.ok ⟨true, 200, exNoaaErr⟩))) =
        { weather := [], tides := fallbackTides exDateStr, error := none }) :=
  ⟨Or.inl (by decide), fetchTides_semantic_failure_spec exDateStr [] 200 exNoaaErr
    (Or.inl (by decide))⟩

end FishingMap
